import Mathlib

/-!
# Verification of the water-quality data-cleaning and query/analytics engine

Shallow embedding of `src/api/app.py`: the ingestion/cleaning pipeline
(`load_and_clean_data`), the filtered query endpoint (`observations`), the
summary-statistics endpoint (`stats_endpoint`) and the on-demand
outlier-detection endpoint (`outliers`).

Modelling conventions:
* Floating-point values are modelled as exact rationals (`ℚ`).  A missing
  value (pandas `NaN`) is `Option.none`.
* `scipy.stats.zscore` divides by the population standard deviation
  (`ddof = 0`).  A zero standard deviation produces `0/0 = NaN`, and any
  IEEE comparison with `NaN` is false; the embedding keeps that branch
  explicit instead of carrying a `NaN` value.
* Since square roots leave `ℚ`, all comparisons against z-scores and
  standard deviations are stated in squared form: for `σ > 0`,
  `|x - μ| / σ < c ↔ (x - μ)² < c² · σ²`.  This is an exact reformulation,
  not an approximation.
* pandas keeps the original integer index labels through `dropna` and
  boolean masking, so the cleaned frame is a list of (label, row) pairs;
  `DataFrame.iloc` with a list of integers is purely positional and raises
  `IndexError` when any position is out of bounds (modelled by `Option`).
* The document store (mongomock) applies `skip` and `limit` by Python list
  slicing: `results[skip:]` when `skip` is nonzero, then `results[:limit]`
  when `limit` is nonzero (`limit(0)` means "no limit", as in MongoDB;
  a negative bound slices from the end of the list).
-/

namespace WaterQuality

/-- The required numeric observation fields used by cleaning and analytics. -/
inductive NumField
  | temperature
  | salinity
  | odo
deriving DecidableEq, Repr

/-- One observation row after schema normalization (`column_mapping` plus
timestamp construction).  `none` models a missing value / failed parse. -/
structure Row where
  timestamp : Option ℚ
  latitude : Option ℚ
  longitude : Option ℚ
  temperature : Option ℚ
  salinity : Option ℚ
  odo : Option ℚ
deriving DecidableEq, Repr

/-- Value of a required numeric field in a row. -/
def Row.get (r : Row) : NumField → Option ℚ
  | NumField.temperature => r.temperature
  | NumField.salinity => r.salinity
  | NumField.odo => r.odo

/-- Which of the required numeric columns are present in the source file
(`numeric_available` in `load_and_clean_data`). -/
structure Schema where
  temperature : Bool
  salinity : Bool
  odo : Bool
deriving DecidableEq, Repr

/-- Does the schema contain the given numeric column? -/
def Schema.has (s : Schema) : NumField → Bool
  | NumField.temperature => s.temperature
  | NumField.salinity => s.salinity
  | NumField.odo => s.odo

/-- Mirrors `numeric_available = [col for col in numeric_columns if col in df.columns]`,
in the fixed order temperature, salinity, odo. -/
def Schema.numericAvailable (s : Schema) : List NumField :=
  (if s.temperature then [NumField.temperature] else []) ++
    (if s.salinity then [NumField.salinity] else []) ++
    (if s.odo then [NumField.odo] else [])

/-- Arithmetic mean of a list of rationals (`np.mean`); `0` on the empty
list, where the source would produce `NaN` (callers guard that case). -/
def mean (xs : List ℚ) : ℚ := xs.sum / xs.length

/-- Population variance, denominator `n` (`scipy.stats.zscore` uses
`ddof = 0`, i.e. divides by the population standard deviation `√popVar`). -/
def popVar (xs : List ℚ) : ℚ :=
  (xs.map (fun x => (x - mean xs) ^ 2)).sum / xs.length

/-- Sample variance, denominator `n - 1` (`DataFrame.describe` reports
`std` with `ddof = 1`, i.e. the sample standard deviation `√sampleVar`). -/
def sampleVar (xs : List ℚ) : ℚ :=
  (xs.map (fun x => (x - mean xs) ^ 2)).sum / ((xs.length : ℚ) - 1)

/-- One entry of the ingestion-time mask `np.abs(stats.zscore(col)) < 3.0`:
`true` iff the z-score of `x` against column `xs` has magnitude `< 3`.
When the population standard deviation is zero (constant column, or fewer
than two values) the z-score is `0/0 = NaN` and `NaN < 3.0` is false, so the
entry is `false`.  Otherwise `|x-μ|/σ < 3 ↔ (x-μ)² < 9·σ²`. -/
def zKeep (xs : List ℚ) (x : ℚ) : Bool :=
  if popVar xs = 0 then false
  else decide ((x - mean xs) ^ 2 < 9 * popVar xs)

/-- The values of a numeric column of a frame. -/
def colValues (rows : List Row) (f : NumField) : List ℚ :=
  rows.filterMap (fun r => r.get f)

/-- Row has a value in every available required numeric column
(the complement of `df.dropna(subset=numeric_available)`'s drop test). -/
def requiredComplete (s : Schema) (r : Row) : Bool :=
  s.numericAvailable.all (fun f => (r.get f).isSome)

/-- Mirrors `df.dropna(subset=numeric_available)`: drop rows missing a value in any
available required numeric column. -/
def dropIncomplete (s : Schema) (rows : List Row) : List Row :=
  rows.filter (requiredComplete s)

/-- One row of `(np.abs(stats.zscore(df[numeric_available])) < 3.0).all(axis=1)`:
the row is kept iff every available column's z-score entry is below 3,
where the column statistics are taken over `rows` (the frame surviving the
required-field drop). -/
def zMaskKeep (s : Schema) (rows : List Row) (r : Row) : Bool :=
  s.numericAvailable.all (fun f => zKeep (colValues rows f) ((r.get f).getD 0))

/-- The full cleaning pass of `load_and_clean_data`: required-field drop,
then the one-shot z-score filter (`cleaned_df = df[mask]`). -/
def cleanRows (s : Schema) (raw : List Row) : List Row :=
  (dropIncomplete s raw).filter (zMaskKeep s (dropIncomplete s raw))

/-- Rows removed by the z-score mask (dropped by the one-shot pass itself,
as opposed to the required-field drop). -/
def zDropped (s : Schema) (raw : List Row) : List Row :=
  (dropIncomplete s raw).filter (fun r => ! zMaskKeep s (dropIncomplete s raw) r)

/-- Mirrors `original_count = len(df)`, taken right after `pd.read_csv` — equal to
the row count after column selection, since selecting columns keeps every
row. -/
def originalCount (raw : List Row) : ℕ := raw.length

/-- Rows remaining after cleaning (`len(cleaned_df)`). -/
def remainingCount (s : Schema) (raw : List Row) : ℕ := (cleanRows s raw).length

/-- Mirrors `removed_count = original_count - len(cleaned_df)` (exact in Python's
integers; `remainingCount ≤ originalCount` is proved below). -/
def removedCount (s : Schema) (raw : List Row) : ℕ :=
  originalCount raw - remainingCount s raw

/-- Linear interpolation at fractional position `h` into the sorted value
list `s` (the core of pandas `Series.quantile(..., interpolation='linear')`):
`s[i] + (h - i) * (s[i+1] - s[i])` with `i = ⌊h⌋`, the upper index clamped
to the last element. -/
def interpAt (s : List ℚ) (h : ℚ) : ℚ :=
  let i : ℕ := (⌊h⌋).toNat
  let lo := s.getD i 0
  let hi := s.getD (min (i + 1) (s.length - 1)) 0
  lo + (h - (i : ℚ)) * (hi - lo)

/-- pandas `Series.quantile(q)` with the default linear interpolation:
sort the values and interpolate at position `q * (n - 1)`.  On an empty
series pandas yields `NaN`; every comparison against that `NaN` is false,
and the callers below never compare it, so the value `0` is arbitrary. -/
def quantile (xs : List ℚ) (q : ℚ) : ℚ :=
  let s := List.insertionSort (· ≤ ·) xs
  if s.length = 0 then 0 else interpAt s (q * ((s.length : ℚ) - 1))

/-- The IQR outlier test of the `outliers` endpoint:
`(data < Q1 - k*IQR) | (data > Q3 + k*IQR)`. -/
def iqrOutlier (vals : List ℚ) (k : ℚ) (v : ℚ) : Bool :=
  let q1 := quantile vals (1/4)
  let q3 := quantile vals (3/4)
  let iqr := q3 - q1
  decide (v < q1 - k * iqr) || decide (v > q3 + k * iqr)

/-- The z-score outlier test of the `outliers` endpoint:
`np.abs(stats.zscore(data)) > k`.  Zero population variance makes every
z-score `NaN` and `NaN > k` is false; otherwise, for `k ≥ 0`,
`|z| > k ↔ (x-μ)² > k²·σ²`, and for `k < 0` every finite `|z|` exceeds `k`. -/
def zscoreOutlier (vals : List ℚ) (k : ℚ) (v : ℚ) : Bool :=
  if popVar vals = 0 then false
  else if k < 0 then true
  else decide ((v - mean vals) ^ 2 > k ^ 2 * popVar vals)

/-- Mirrors `data[outlier_mask].index.tolist()`: the pandas index *labels* of the
entries satisfying the mask. -/
def flaggedLabels (data : List (ℕ × ℚ)) (mask : ℚ → Bool) : List ℕ :=
  (data.filter (fun p => mask p.2)).map Prod.fst

/-- Mirrors `cleaned_df.iloc[idxs]`: purely positional lookup; raises `IndexError`
(`none`) when any position is out of bounds. -/
def pandasIloc (store : List (ℕ × Row)) : List ℕ → Option (List Row)
  | [] => some []
  | i :: is =>
    match (store.get? i).map Prod.snd, pandasIloc store is with
    | some r, some rs => some (r :: rs)
    | _, _ => none

/-- Response body of the `outliers` endpoint. -/
structure OutlierResponse where
  method : String
  field : NumField
  k : ℚ
  outlierCount : ℕ
  outliers : List Row
deriving DecidableEq, Repr

/-- Mirrors `data = cleaned_df[field].dropna()`: the (label, value) pairs of the
entries of `field` that are present, in store order. -/
def fieldData (store : List (ℕ × Row)) (field : NumField) : List (ℕ × ℚ) :=
  store.filterMap (fun p => (p.2.get field).map (fun v => (p.1, v)))

/-- The `outliers` endpoint.  The cleaned frame is a list of
(pandas label, row) pairs; labels survive `dropna` and boolean masking, so
after any row was dropped they no longer agree with positions.  Request
parameters default to `field='temperature'`, `method='iqr'`, `k=1.5`
(`request.args.get('k', default=1.5, type=float)` — the same default for
both methods).  `none` models a non-2xx response (unknown field, unknown
method, or the `IndexError` raised by `.iloc` and turned into a 500). -/
def outliersEndpoint (s : Schema) (store : List (ℕ × Row))
    (fieldArg : Option NumField) (methodArg : Option String)
    (kArg : Option ℚ) : Option OutlierResponse :=
  let field := fieldArg.getD NumField.temperature
  let method := methodArg.getD "iqr"
  let k := kArg.getD (3/2)
  if s.has field then
    let data := fieldData store field
    let vals := data.map Prod.snd
    let labels : Option (List ℕ) :=
      if method = "iqr" then some (flaggedLabels data (iqrOutlier vals k))
      else if method = "zscore" then some (flaggedLabels data (zscoreOutlier vals k))
      else none
    match labels with
    | none => none
    | some ls =>
      match pandasIloc store ls with
      | none => none
      | some rows => some ⟨method, field, k, rows.length, rows⟩
  else none

/-- Per-field block of the `stats` endpoint's response
(`df.describe(percentiles=[.25, .5, .75])`).  pandas reports `NaN`
(modelled `none`) for every statistic except `count` on an empty column,
and `NaN` for `std` on a single value (`ddof = 1`).  `stdSq` carries the
sample *variance*: the reported `std` is its square root, which the
rational embedding compares in squared form. -/
structure FieldStats where
  count : ℕ
  mean : Option ℚ
  stdSq : Option ℚ
  min : Option ℚ
  p25 : Option ℚ
  p50 : Option ℚ
  p75 : Option ℚ
  max : Option ℚ
deriving DecidableEq, Repr

/-- Mirrors `describe` applied to one numeric column. -/
def describeField (xs : List ℚ) : FieldStats :=
  if xs.length = 0 then ⟨0, none, none, none, none, none, none, none⟩
  else
    { count := xs.length
      mean := some (mean xs)
      stdSq := if xs.length < 2 then none else some (sampleVar xs)
      min := xs.min?
      p25 := some (quantile xs (1/4))
      p50 := some (quantile xs (1/2))
      p75 := some (quantile xs (3/4))
      max := xs.max? }

/-- The `stats` endpoint: 500 error when none of the required numeric
columns is available, otherwise `describe` on each available column of the
cleaned frame.  (An empty frame with columns present is *not* an error:
pandas `describe` then reports count 0 and `NaN` statistics, which the
endpoint serializes as numbers.) -/
def statsEndpoint (s : Schema) (store : List Row) :
    Except String (List (NumField × FieldStats)) :=
  if s.numericAvailable.isEmpty then Except.error "No numeric columns available"
  else Except.ok (s.numericAvailable.map (fun f => (f, describeField (colValues store f))))

/-- Optional range filter on one stored field, as mongomock evaluates the
query document built by `observations`: when neither bound is supplied the
field is unconstrained; when a bound is supplied, a document lacking the
field does not match. -/
def optInBounds (lo hi : Option ℚ) (v? : Option ℚ) : Bool :=
  match lo, hi with
  | none, none => true
  | _, _ =>
    match v? with
    | none => false
    | some v =>
      (match lo with | none => true | some a => decide (a ≤ v)) &&
        (match hi with | none => true | some b => decide (v ≤ b))

/-- A parsed query string for the `observations` endpoint (its optional
range bounds; `limit`/`skip` are passed separately).  Timestamps are
compared through `$gte`/`$lte` on ISO-8601 strings, whose lexicographic
order agrees with chronological order; the embedding uses `ℚ` with `≤`. -/
structure FilterSpec where
  start : Option ℚ
  stop : Option ℚ
  minTemp : Option ℚ
  maxTemp : Option ℚ
  minSal : Option ℚ
  maxSal : Option ℚ
  minOdo : Option ℚ
  maxOdo : Option ℚ
deriving DecidableEq, Repr

/-- The query with no bounds at all. -/
def FilterSpec.noFilter : FilterSpec := ⟨none, none, none, none, none, none, none, none⟩

/-- Does a stored record match the query document built from the filters? -/
def obsMatches (q : FilterSpec) (r : Row) : Bool :=
  optInBounds q.start q.stop r.timestamp &&
    optInBounds q.minTemp q.maxTemp r.temperature &&
    optInBounds q.minSal q.maxSal r.salinity &&
    optInBounds q.minOdo q.maxOdo r.odo

/-- Python `l[s:]` (mongomock applies `results[self._skip:]`): a negative
start counts from the end of the list. -/
def pySliceFrom (s : ℤ) (l : List Row) : List Row :=
  if 0 ≤ s then l.drop s.toNat else l.drop ((l.length : ℤ) + s).toNat

/-- Python `l[:m]` (mongomock applies `results[:self._limit]`): a negative
stop counts from the end of the list. -/
def pySliceTo (m : ℤ) (l : List Row) : List Row :=
  if 0 ≤ m then l.take m.toNat else l.take ((l.length : ℤ) + m).toNat

/-- Mirrors `limit = min(request.args.get('limit', default=100, type=int), 1000)`. -/
def effectiveLimit (limitArg : Option ℤ) : ℤ := min (limitArg.getD 100) 1000

/-- Mirrors `skip = request.args.get('skip', default=0, type=int)` (no clamping). -/
def effectiveSkip (skipArg : Option ℤ) : ℤ := skipArg.getD 0

/-- The cleaned frame with its pandas index labels: `pd.read_csv` assigns
the positions `0..n-1` as labels, and `dropna` and boolean masking keep
each surviving row's label. -/
def labeledClean (s : Schema) (raw : List Row) : List (ℕ × Row) :=
  ((raw.enum.filter (fun p => requiredComplete s p.2)).filter
    (fun p => zMaskKeep s (dropIncomplete s raw) p.2))

/-- Response body of the `observations` endpoint. -/
structure ObsResponse where
  count : ℕ
  returned : ℕ
  items : List Row
deriving DecidableEq, Repr

/-- The `observations` endpoint: filter the store, apply mongomock's
`skip` then `limit` (each a Python slice, applied only when the stored
value is truthy — in particular `limit(0)` disables the limit), and report
the page plus the pagination-independent `count_documents` total. -/
def observationsEndpoint (store : List Row) (q : FilterSpec)
    (limitArg skipArg : Option ℤ) : ObsResponse :=
  let limit := effectiveLimit limitArg
  let skip := effectiveSkip skipArg
  let results := store.filter (obsMatches q)
  let afterSkip := if skip = 0 then results else pySliceFrom skip results
  let items := if limit = 0 then afterSkip else pySliceTo limit afterSkip
  { count := results.length, returned := items.length, items := items }

end WaterQuality

namespace WaterQuality

/-- Access into a `≤`-sorted list is monotone in the index. -/
theorem sorted_getD_mono {s : List ℚ} (hs : s.Sorted (· ≤ ·)) {i j : ℕ}
    (hij : i ≤ j) (hj : j < s.length) : s.getD i 0 ≤ s.getD j 0 := by
  have hi : i < s.length := lt_of_le_of_lt hij hj
  rw [List.getD_eq_getElem _ _ hi, List.getD_eq_getElem _ _ hj]
  have h := hs.rel_get_of_le (a := ⟨i, hi⟩) (b := ⟨j, hj⟩) (Fin.mk_le_mk.mpr hij)
  simpa using h

/-- Monotonicity of one linear-interpolation step between sorted samples,
stated over explicit indices. -/
theorem interpCore_mono {s : List ℚ} (hs : s.Sorted (· ≤ ·)) {i1 i2 : ℕ}
    {h1 h2 : ℚ} (hi12 : i1 ≤ i2) (hi2top : i2 ≤ s.length - 1)
    (hn1 : 1 ≤ s.length) (_hle1 : (i1 : ℚ) ≤ h1) (hlt1 : h1 < (i1 : ℚ) + 1)
    (hle2 : (i2 : ℚ) ≤ h2) (h12 : h1 ≤ h2) :
    s.getD i1 0 + (h1 - (i1 : ℚ)) *
        (s.getD (min (i1 + 1) (s.length - 1)) 0 - s.getD i1 0) ≤
      s.getD i2 0 + (h2 - (i2 : ℚ)) *
        (s.getD (min (i2 + 1) (s.length - 1)) 0 - s.getD i2 0) := by
  have hm1 : min (i1 + 1) (s.length - 1) < s.length := by omega
  have hm2 : min (i2 + 1) (s.length - 1) < s.length := by omega
  have hi1top : i1 ≤ s.length - 1 := le_trans hi12 hi2top
  have hlo1 : s.getD i1 0 ≤ s.getD (min (i1 + 1) (s.length - 1)) 0 :=
    sorted_getD_mono hs (by omega) hm1
  have hlo2 : s.getD i2 0 ≤ s.getD (min (i2 + 1) (s.length - 1)) 0 :=
    sorted_getD_mono hs (by omega) hm2
  rcases Nat.lt_or_ge i1 i2 with hlt | hge
  · -- the value at h1 is at most its upper sample, which is at most the
    -- lower sample of h2, which is at most the value at h2
    have hub : s.getD (min (i1 + 1) (s.length - 1)) 0 ≤ s.getD i2 0 :=
      sorted_getD_mono hs (by omega) (by omega)
    have p1 : 0 ≤ (1 - (h1 - (i1 : ℚ))) *
        (s.getD (min (i1 + 1) (s.length - 1)) 0 - s.getD i1 0) :=
      mul_nonneg (by linarith) (by linarith)
    have p2 : 0 ≤ (h2 - (i2 : ℚ)) *
        (s.getD (min (i2 + 1) (s.length - 1)) 0 - s.getD i2 0) :=
      mul_nonneg (by linarith) (by linarith)
    nlinarith [p1, p2, hub]
  · have heq : i1 = i2 := le_antisymm hi12 hge
    subst heq
    have p : 0 ≤ (h2 - h1) *
        (s.getD (min (i1 + 1) (s.length - 1)) 0 - s.getD i1 0) :=
      mul_nonneg (by linarith) (by linarith)
    nlinarith [p]

/-- Linear interpolation into a sorted list is monotone in the position,
for positions within `[0, length - 1]`. -/
theorem interpAt_mono {s : List ℚ} (hs : s.Sorted (· ≤ ·)) (hne : s ≠ [])
    {h1 h2 : ℚ} (h10 : 0 ≤ h1) (h12 : h1 ≤ h2)
    (h2n : h2 ≤ (s.length : ℚ) - 1) :
    interpAt s h1 ≤ interpAt s h2 := by
  have hn1 : 1 ≤ s.length := List.length_pos.mpr hne
  have h20 : 0 ≤ h2 := le_trans h10 h12
  have hf1 : (0 : ℤ) ≤ ⌊h1⌋ := Int.floor_nonneg.mpr h10
  have hf2 : (0 : ℤ) ≤ ⌊h2⌋ := Int.floor_nonneg.mpr h20
  have hc1 : (((⌊h1⌋).toNat : ℚ)) = ((⌊h1⌋ : ℤ) : ℚ) := by
    exact_mod_cast Int.toNat_of_nonneg hf1
  have hc2 : (((⌊h2⌋).toNat : ℚ)) = ((⌊h2⌋ : ℤ) : ℚ) := by
    exact_mod_cast Int.toNat_of_nonneg hf2
  have hle1 : (((⌊h1⌋).toNat : ℚ)) ≤ h1 := by rw [hc1]; exact Int.floor_le h1
  have hlt1 : h1 < (((⌊h1⌋).toNat : ℚ)) + 1 := by
    rw [hc1]; exact Int.lt_floor_add_one h1
  have hle2 : (((⌊h2⌋).toNat : ℚ)) ≤ h2 := by rw [hc2]; exact Int.floor_le h2
  have hi12 : (⌊h1⌋).toNat ≤ (⌊h2⌋).toNat :=
    Int.toNat_le_toNat (Int.floor_le_floor h12)
  have hi2top : (⌊h2⌋).toNat ≤ s.length - 1 := by
    have hq : (((⌊h2⌋).toNat : ℚ)) ≤ (s.length : ℚ) - 1 := le_trans hle2 h2n
    have hz : (((⌊h2⌋).toNat : ℤ)) ≤ (s.length : ℤ) - 1 := by exact_mod_cast hq
    omega
  exact interpCore_mono hs hi12 hi2top hn1 hle1 hlt1 hle2 h12

/-- pandas' linear-interpolation quantile is monotone in the quantile
level on `[0, 1]`. -/
theorem quantile_mono (xs : List ℚ) {q1 q2 : ℚ} (h0 : 0 ≤ q1) (h12 : q1 ≤ q2)
    (h21 : q2 ≤ 1) : quantile xs q1 ≤ quantile xs q2 := by
  unfold quantile
  by_cases hlen : (List.insertionSort (· ≤ ·) xs).length = 0
  · simp [hlen]
  · have hne : List.insertionSort (· ≤ ·) xs ≠ [] := by
      intro h; rw [h] at hlen; exact hlen rfl
    have hn1 : 1 ≤ (List.insertionSort (· ≤ ·) xs).length := by omega
    have hnn : (0 : ℚ) ≤ ((List.insertionSort (· ≤ ·) xs).length : ℚ) - 1 := by
      have : (1 : ℚ) ≤ ((List.insertionSort (· ≤ ·) xs).length : ℚ) := by
        exact_mod_cast hn1
      linarith
    simp only [hlen, if_false]
    apply interpAt_mono (List.sorted_insertionSort _ xs) hne
    · exact mul_nonneg h0 hnn
    · exact mul_le_mul_of_nonneg_right h12 hnn
    · calc q2 * (((List.insertionSort (· ≤ ·) xs).length : ℚ) - 1)
          ≤ 1 * (((List.insertionSort (· ≤ ·) xs).length : ℚ) - 1) :=
            mul_le_mul_of_nonneg_right h21 hnn
        _ = ((List.insertionSort (· ≤ ·) xs).length : ℚ) - 1 := one_mul _

/-- Q1 never exceeds Q3, hence the IQR is nonnegative. -/
theorem quantile_q1_le_q3 (vals : List ℚ) :
    quantile vals (1/4) ≤ quantile vals (3/4) :=
  quantile_mono vals (by norm_num) (by norm_num) (by norm_num)

/-- The per-value IQR outlier test is antitone in the multiplier `k`. -/
theorem iqrOutlier_antitone (vals : List ℚ) {k1 k2 : ℚ} (hk : k1 ≤ k2)
    (v : ℚ) (h : iqrOutlier vals k2 v = true) : iqrOutlier vals k1 v = true := by
  unfold iqrOutlier at h ⊢
  have hq := quantile_q1_le_q3 vals
  simp only [Bool.or_eq_true, decide_eq_true_eq] at h ⊢
  have hIQR : 0 ≤ quantile vals (3/4) - quantile vals (1/4) := by linarith
  have hmul : k1 * (quantile vals (3/4) - quantile vals (1/4)) ≤
      k2 * (quantile vals (3/4) - quantile vals (1/4)) :=
    mul_le_mul_of_nonneg_right hk hIQR
  rcases h with h | h
  · left; linarith
  · right; linarith

theorem remainingCount_le_originalCount (s : Schema) (raw : List Row) :
    remainingCount s raw ≤ originalCount raw := by
  unfold remainingCount originalCount cleanRows dropIncomplete
  exact le_trans (List.length_filter_le _ _) (List.length_filter_le _ _)

/-- Filtering on the second component commutes with projecting it. -/
theorem filter_snd_map {α β : Type} (l : List (α × β)) (P : β → Bool) :
    (l.filter (fun p => P p.2)).map Prod.snd = (l.map Prod.snd).filter P := by
  rw [List.filter_map]
  rfl

/-- The labels of `labeledClean` carry exactly the rows of `cleanRows`. -/
theorem labeledClean_map_snd (s : Schema) (raw : List Row) :
    (labeledClean s raw).map Prod.snd = cleanRows s raw := by
  unfold labeledClean cleanRows
  rw [filter_snd_map, filter_snd_map, List.enum_map_snd]
  rfl

/-- A row with only a timestamp and a temperature value. -/
def mkRow (ts v : ℚ) : Row := ⟨some ts, none, none, some v, none, none⟩

/-- The schema of a source that has only the temperature column. -/
def schemaTemp : Schema := ⟨true, false, false⟩

/-- Claim C8: After every ingestion run, the provenance counters satisfy
`original_count = removed_count + remaining_count` exactly, where
`original_count` is the row count of the source frame (column selection
preserves the row count, so this is also the count after column selection
and before the required-field drop). -/
theorem provenance_counters_exact (s : Schema) (raw : List Row) :
    originalCount raw = removedCount s raw + remainingCount s raw := by
  have h := remainingCount_le_originalCount s raw
  unfold removedCount
  omega

end WaterQuality

namespace WaterQuality

/-- A small cleaned store used to instantiate universally quantified
theorems: three complete temperature records. -/
def demoStore : List (ℕ × Row) := [(0, mkRow 0 10), (1, mkRow 1 20), (2, mkRow 2 100)]

/-- Claim C9: For every fixed store and field, IQR outlier detection is
antitone in `k`: for `k1 ≤ k2`, every record label flagged with multiplier
`k2` is also flagged with multiplier `k1`. -/
theorem iqr_detection_antitone_in_k (store : List (ℕ × Row)) (field : NumField)
    {k1 k2 : ℚ} (hk : k1 ≤ k2) :
    ∀ l ∈ flaggedLabels (fieldData store field)
        (iqrOutlier ((fieldData store field).map Prod.snd) k2),
      l ∈ flaggedLabels (fieldData store field)
        (iqrOutlier ((fieldData store field).map Prod.snd) k1) := by
  intro l hl
  unfold flaggedLabels at hl ⊢
  simp only [List.mem_map, List.mem_filter] at hl ⊢
  obtain ⟨p, ⟨hp, hmask⟩, hpl⟩ := hl
  exact ⟨p, ⟨hp, iqrOutlier_antitone _ hk _ hmask⟩, hpl⟩

/-- Witness for C9 at the demo store with `k1 = 1 ≤ 2 = k2`. -/
theorem iqr_detection_antitone_in_k_witness :
    (1 : ℚ) ≤ 2 ∧
      ∀ l ∈ flaggedLabels (fieldData demoStore NumField.temperature)
          (iqrOutlier ((fieldData demoStore NumField.temperature).map Prod.snd) 2),
        l ∈ flaggedLabels (fieldData demoStore NumField.temperature)
          (iqrOutlier ((fieldData demoStore NumField.temperature).map Prod.snd) 1) :=
  ⟨by norm_num,
    iqr_detection_antitone_in_k demoStore NumField.temperature (by norm_num)⟩

/-- Claim C3 (counterexample): With `method = zscore` and `k` unsupplied, the
endpoint uses and reports `k = 1.5`, not the claimed method-specific
default `3.0`. -/
theorem zscore_default_k_is_not_3 :
    (outliersEndpoint schemaTemp demoStore (some NumField.temperature)
        (some "zscore") none).map OutlierResponse.k = some (3/2) ∧
      (3/2 : ℚ) ≠ 3 := by
  have h1 : zscoreOutlier [(10 : ℚ), 20, 100] (3/2) 10 = false := by
    norm_num [zscoreOutlier, popVar, mean]
  have h2 : zscoreOutlier [(10 : ℚ), 20, 100] (3/2) 20 = false := by
    norm_num [zscoreOutlier, popVar, mean]
  have h3 : zscoreOutlier [(10 : ℚ), 20, 100] (3/2) 100 = false := by
    norm_num [zscoreOutlier, popVar, mean]
  constructor
  · simp [outliersEndpoint, fieldData, flaggedLabels, pandasIloc, demoStore,
      mkRow, Row.get, Schema.has, schemaTemp, List.filter_cons, h1, h2, h3]
  · norm_num

/-- Claim C3 (amended): When the sensitivity parameter `k` is not supplied,
its default is `1.5` for *both* methods (`request.args.get` has the single
default `1.5`, applied before the method is inspected). -/
theorem default_k_is_1_5_for_all_methods (s : Schema) (store : List (ℕ × Row))
    (fieldArg : Option NumField) (methodArg : Option String)
    (resp : OutlierResponse)
    (h : outliersEndpoint s store fieldArg methodArg none = some resp) :
    resp.k = 3/2 := by
  unfold outliersEndpoint at h
  dsimp only at h
  split at h
  · split at h
    · exact Option.noConfusion h
    · split at h
      · exact Option.noConfusion h
      · cases h
        rfl
  · exact Option.noConfusion h

/-- Witness for C3's amended theorem: a concrete successful zscore call. -/
theorem default_k_is_1_5_for_all_methods_witness :
    outliersEndpoint schemaTemp demoStore (some NumField.temperature)
        (some "zscore") none =
      some ⟨"zscore", NumField.temperature, 3/2, 0, []⟩ ∧
      (⟨"zscore", NumField.temperature, 3/2, 0, []⟩ : OutlierResponse).k = 3/2 :=
  ⟨by
    have h1 : zscoreOutlier [(10 : ℚ), 20, 100] (3/2) 10 = false := by
      norm_num [zscoreOutlier, popVar, mean]
    have h2 : zscoreOutlier [(10 : ℚ), 20, 100] (3/2) 20 = false := by
      norm_num [zscoreOutlier, popVar, mean]
    have h3 : zscoreOutlier [(10 : ℚ), 20, 100] (3/2) 100 = false := by
      norm_num [zscoreOutlier, popVar, mean]
    simp [outliersEndpoint, fieldData, flaggedLabels, pandasIloc, demoStore,
      mkRow, Row.get, Schema.has, schemaTemp, List.filter_cons, h1, h2, h3],
    default_k_is_1_5_for_all_methods schemaTemp demoStore
      (some NumField.temperature) (some "zscore") _
      (by
        have h1 : zscoreOutlier [(10 : ℚ), 20, 100] (3/2) 10 = false := by
          norm_num [zscoreOutlier, popVar, mean]
        have h2 : zscoreOutlier [(10 : ℚ), 20, 100] (3/2) 20 = false := by
          norm_num [zscoreOutlier, popVar, mean]
        have h3 : zscoreOutlier [(10 : ℚ), 20, 100] (3/2) 100 = false := by
          norm_num [zscoreOutlier, popVar, mean]
        simp [outliersEndpoint, fieldData, flaggedLabels, pandasIloc, demoStore,
          mkRow, Row.get, Schema.has, schemaTemp, List.filter_cons, h1, h2, h3])⟩

end WaterQuality

namespace WaterQuality

/-- Claim C2 (code bug): A source whose only numeric column is constant
(two rows with temperature `5`): the column's standard deviation is zero,
so scipy's z-scores are all `NaN`, `NaN < 3.0` is false, and the cleaning
pass drops *every* row — the spec instead requires the degenerate field's
z-score to be treated as `0` so that the field never rejects a row.  The
third conjunct shows the on-demand z-score detection half of the claim
does hold: on a constant column no row is flagged. -/
theorem constant_field_cleaning_drops_all_rows :
    (dropIncomplete schemaTemp [mkRow 0 5, mkRow 1 5]).length = 2 ∧
      cleanRows schemaTemp [mkRow 0 5, mkRow 1 5] = [] ∧
      (outliersEndpoint schemaTemp [(0, mkRow 0 5), (1, mkRow 1 5)]
          (some NumField.temperature) (some "zscore") none).map
        OutlierResponse.outliers = some [] := by
  have hz : zKeep [(5 : ℚ), 5] 5 = false := by
    norm_num [zKeep, popVar, mean]
  have hzo : ∀ v : ℚ, zscoreOutlier [(5 : ℚ), 5] (3/2) v = false := by
    intro v
    norm_num [zscoreOutlier, popVar, mean]
  refine ⟨?_, ?_, ?_⟩
  · simp [dropIncomplete, requiredComplete, Schema.numericAvailable, schemaTemp,
      mkRow, Row.get, List.filter_cons]
  · simp [cleanRows, dropIncomplete, requiredComplete, zMaskKeep,
      Schema.numericAvailable, schemaTemp, mkRow, Row.get, colValues,
      List.filter_cons, hz]
  · simp [outliersEndpoint, fieldData, flaggedLabels, pandasIloc, Schema.has,
      schemaTemp, mkRow, Row.get, List.filter_cons, hzo]

/-- The raw frame for the C1 failing input: row 0 is missing its
temperature (dropped by the required-field step, which shifts labels away
from positions), rows 1–5 carry temperatures 10, 10, 1000, 10, 10. -/
def c1raw : List Row :=
  [⟨some 0, none, none, none, none, none⟩,
    mkRow 1 10, mkRow 2 10, mkRow 3 1000, mkRow 4 10, mkRow 5 10]

/-- The cleaned, labelled store for the C1 failing input. -/
def c1store : List (ℕ × Row) := labeledClean schemaTemp c1raw

end WaterQuality

namespace WaterQuality

/-- Claim C1 (code bug): On the C1 failing input the `outliers` endpoint
(IQR, all parameters defaulted) returns the record with temperature `10`
at *position* 3 of the cleaned frame, because the pandas index *label* 3 of
the flagged record is fed to positional `.iloc`; the stored records whose
temperature actually satisfies the IQR outlier condition are exactly the
one with temperature `1000`. -/
theorem outliers_endpoint_returns_nonoutlier_record :
    outliersEndpoint schemaTemp c1store none none none =
      some ⟨"iqr", NumField.temperature, 3/2, 1, [mkRow 4 10]⟩ ∧
      (cleanRows schemaTemp c1raw).filter
          (fun r => iqrOutlier (colValues (cleanRows schemaTemp c1raw) NumField.temperature)
            (3/2) ((r.get NumField.temperature).getD 0)) = [mkRow 3 1000] ∧
      mkRow 4 10 ≠ mkRow 3 1000 := by
  have hzk10 : zKeep [(10 : ℚ), 10, 1000, 10, 10] 10 = true := by
    norm_num [zKeep, popVar, mean]
  have hzk1000 : zKeep [(10 : ℚ), 10, 1000, 10, 10] 1000 = true := by
    norm_num [zKeep, popVar, mean]
  have hiqr10 : iqrOutlier [(10 : ℚ), 10, 1000, 10, 10] (3/2) 10 = false := by
    norm_num [iqrOutlier, quantile, List.insertionSort, List.orderedInsert,
      interpAt]
    simp
  have hiqr1000 : iqrOutlier [(10 : ℚ), 10, 1000, 10, 10] (3/2) 1000 = true := by
    norm_num [iqrOutlier, quantile, List.insertionSort, List.orderedInsert,
      interpAt]
    simp
  have hclean : cleanRows schemaTemp c1raw =
      [mkRow 1 10, mkRow 2 10, mkRow 3 1000, mkRow 4 10, mkRow 5 10] := by
    simp [cleanRows, dropIncomplete, requiredComplete, zMaskKeep, colValues,
      Schema.numericAvailable, schemaTemp, c1raw, mkRow, Row.get,
      List.filter_cons, hzk10, hzk1000]
  have hstore : c1store =
      [(1, mkRow 1 10), (2, mkRow 2 10), (3, mkRow 3 1000),
        (4, mkRow 4 10), (5, mkRow 5 10)] := by
    simp [c1store, labeledClean, dropIncomplete, requiredComplete, zMaskKeep,
      colValues, Schema.numericAvailable, schemaTemp, c1raw, mkRow, Row.get,
      List.filter_cons, hzk10, hzk1000, List.enum, List.enumFrom]
  refine ⟨?_, ?_, ?_⟩
  · rw [hstore]
    simp [outliersEndpoint, fieldData, flaggedLabels, pandasIloc, Schema.has,
      schemaTemp, mkRow, Row.get, List.filter_cons, hiqr10, hiqr1000]
  · rw [hclean]
    simp [colValues, mkRow, Row.get, List.filter_cons, hiqr10, hiqr1000]
  · simp [mkRow]

end WaterQuality

namespace WaterQuality

/-- The C4 boundary dataset: nine temperature readings of `1`, nine of
`-1`, one of `9` and one of `-9`.  Mean `0`, population variance `9`, so
the reading `9` has population z-score exactly `3` (dropped by the strict
`< 3.0` mask) while its sample-std z-score is `3·√(19/20) < 3`. -/
def c4raw : List Row :=
  [mkRow 0 1, mkRow 1 1, mkRow 2 1, mkRow 3 1, mkRow 4 1, mkRow 5 1,
    mkRow 6 1, mkRow 7 1, mkRow 8 1,
    mkRow 9 (-1), mkRow 10 (-1), mkRow 11 (-1), mkRow 12 (-1), mkRow 13 (-1),
    mkRow 14 (-1), mkRow 15 (-1), mkRow 16 (-1), mkRow 17 (-1),
    mkRow 18 9, mkRow 19 (-9)]

/-- The condition `|x - μ| / s ≥ 3` with `s` the **sample** (n-1 denominator) standard
deviation, in squared form — the z-score condition as the claim words it
(the code actually divides by the population standard deviation; this
definition exists only to compare the wording against the code). -/
def sampleZAtLeast3 (xs : List ℚ) (x : ℚ) : Prop :=
  9 * sampleVar xs ≤ (x - mean xs) ^ 2

/-- Claim C4 (counterexample): In the C4 dataset the record with temperature
`9` is dropped by the one-shot z-score pass, yet its z-score magnitude
computed with the *sample* standard deviation (as the claim states) is
below 3 in the only available field — so "every dropped record has
sample-z magnitude ≥ 3.0 in at least one available field" fails. -/
theorem dropped_record_sample_z_below_3 :
    mkRow 18 9 ∈ zDropped schemaTemp c4raw ∧
      ¬ sampleZAtLeast3
          (colValues (dropIncomplete schemaTemp c4raw) NumField.temperature) 9 := by
  have hzk1 : zKeep [(1 : ℚ), 1, 1, 1, 1, 1, 1, 1, 1, -1, -1, -1, -1, -1, -1,
      -1, -1, -1, 9, -9] 1 = true := by
    norm_num [zKeep, popVar, mean]
  have hzkm1 : zKeep [(1 : ℚ), 1, 1, 1, 1, 1, 1, 1, 1, -1, -1, -1, -1, -1, -1,
      -1, -1, -1, 9, -9] (-1) = true := by
    norm_num [zKeep, popVar, mean]
  have hzk9 : zKeep [(1 : ℚ), 1, 1, 1, 1, 1, 1, 1, 1, -1, -1, -1, -1, -1, -1,
      -1, -1, -1, 9, -9] 9 = false := by
    norm_num [zKeep, popVar, mean]
  have hzkm9 : zKeep [(1 : ℚ), 1, 1, 1, 1, 1, 1, 1, 1, -1, -1, -1, -1, -1, -1,
      -1, -1, -1, 9, -9] (-9) = false := by
    norm_num [zKeep, popVar, mean]
  constructor
  · simp [zDropped, dropIncomplete, requiredComplete, zMaskKeep, colValues,
      Schema.numericAvailable, schemaTemp, c4raw, mkRow, Row.get,
      List.filter_cons, hzk1, hzkm1, hzk9, hzkm9]
  · have hcv : colValues (dropIncomplete schemaTemp c4raw) NumField.temperature =
        [(1 : ℚ), 1, 1, 1, 1, 1, 1, 1, 1, -1, -1, -1, -1, -1, -1,
          -1, -1, -1, 9, -9] := by
      simp [colValues, dropIncomplete, requiredComplete, Schema.numericAvailable,
        schemaTemp, c4raw, mkRow, Row.get, List.filter_cons]
    rw [hcv]
    norm_num [sampleZAtLeast3, sampleVar, mean]

end WaterQuality

namespace WaterQuality

/-- Claim C4 (amended): With the *population* standard deviation (denominator
`n`, which is what `scipy.stats.zscore` divides by), and assuming every
available field has non-zero variance over the post-drop rows: every
record kept by the one-shot pass has squared deviation below `9·σ²` (i.e.
`|z| < 3`) in every available field, and every record the z-score mask
dropped has squared deviation at least `9·σ²` (`|z| ≥ 3`) in at least one
available field. -/
theorem cleaning_popz_characterization (s : Schema) (raw : List Row)
    (hvar : ∀ f ∈ s.numericAvailable,
      popVar (colValues (dropIncomplete s raw) f) ≠ 0) :
    (∀ r ∈ cleanRows s raw, ∀ f ∈ s.numericAvailable,
      ((r.get f).getD 0 - mean (colValues (dropIncomplete s raw) f)) ^ 2 <
        9 * popVar (colValues (dropIncomplete s raw) f)) ∧
    (∀ r ∈ zDropped s raw, ∃ f ∈ s.numericAvailable,
      9 * popVar (colValues (dropIncomplete s raw) f) ≤
        ((r.get f).getD 0 - mean (colValues (dropIncomplete s raw) f)) ^ 2) := by
  constructor
  · intro r hr f hf
    rw [cleanRows, List.mem_filter] at hr
    have hmask := hr.2
    rw [zMaskKeep, List.all_eq_true] at hmask
    have h := hmask f hf
    rw [zKeep, if_neg (hvar f hf)] at h
    exact of_decide_eq_true h
  · intro r hr
    rw [zDropped, List.mem_filter] at hr
    have hmask : zMaskKeep s (dropIncomplete s raw) r = false := by
      have h2 := hr.2
      revert h2
      cases zMaskKeep s (dropIncomplete s raw) r <;> simp
    have hex : ∃ f ∈ s.numericAvailable,
        zKeep (colValues (dropIncomplete s raw) f) ((r.get f).getD 0) = false := by
      by_contra hc
      push_neg at hc
      have hall : zMaskKeep s (dropIncomplete s raw) r = true := by
        rw [zMaskKeep, List.all_eq_true]
        intro f hf
        have := hc f hf
        revert this
        cases zKeep (colValues (dropIncomplete s raw) f) ((r.get f).getD 0) <;>
          simp
      rw [hall] at hmask
      exact Bool.noConfusion hmask
    obtain ⟨f, hf, hkf⟩ := hex
    refine ⟨f, hf, ?_⟩
    rw [zKeep, if_neg (hvar f hf)] at hkf
    have := of_decide_eq_false hkf
    linarith [not_lt.mp this]

/-- Witness for C4's amended theorem on a three-row temperature-only
source with non-degenerate variance. -/
theorem cleaning_popz_characterization_witness :
    (∀ f ∈ schemaTemp.numericAvailable,
      popVar (colValues
        (dropIncomplete schemaTemp [mkRow 0 1, mkRow 1 2, mkRow 2 4]) f) ≠ 0) ∧
    ((∀ r ∈ cleanRows schemaTemp [mkRow 0 1, mkRow 1 2, mkRow 2 4],
        ∀ f ∈ schemaTemp.numericAvailable,
      ((r.get f).getD 0 - mean (colValues
        (dropIncomplete schemaTemp [mkRow 0 1, mkRow 1 2, mkRow 2 4]) f)) ^ 2 <
        9 * popVar (colValues
          (dropIncomplete schemaTemp [mkRow 0 1, mkRow 1 2, mkRow 2 4]) f)) ∧
    (∀ r ∈ zDropped schemaTemp [mkRow 0 1, mkRow 1 2, mkRow 2 4],
      ∃ f ∈ schemaTemp.numericAvailable,
      9 * popVar (colValues
          (dropIncomplete schemaTemp [mkRow 0 1, mkRow 1 2, mkRow 2 4]) f) ≤
        ((r.get f).getD 0 - mean (colValues
          (dropIncomplete schemaTemp [mkRow 0 1, mkRow 1 2, mkRow 2 4]) f)) ^ 2)) := by
  have hvar : ∀ f ∈ schemaTemp.numericAvailable,
      popVar (colValues
        (dropIncomplete schemaTemp [mkRow 0 1, mkRow 1 2, mkRow 2 4]) f) ≠ 0 := by
    intro f hf
    have hft : f = NumField.temperature := by
      simpa [Schema.numericAvailable, schemaTemp] using hf
    subst hft
    have hcv : colValues
        (dropIncomplete schemaTemp [mkRow 0 1, mkRow 1 2, mkRow 2 4])
          NumField.temperature = [(1 : ℚ), 2, 4] := by
      simp [colValues, dropIncomplete, requiredComplete, Schema.numericAvailable,
        schemaTemp, mkRow, Row.get, List.filter_cons]
    rw [hcv]
    norm_num [popVar, mean]
  exact ⟨hvar, cleaning_popz_characterization schemaTemp _ hvar⟩

end WaterQuality

namespace WaterQuality

/-- Claim C10: The cleaning pass divides by the population standard
deviation (`popVar`, denominator `n`) while the `stats` endpoint reports
the sample standard deviation (`sampleVar`, denominator `n-1`, carried in
`stdSq`): for every column with at least two values and non-zero variance
the two variances differ, and some value's z-score (here compared in
squared form, which determines `|z|`) differs between the two
conventions. -/
theorem popvar_samplevar_zscores_differ (xs : List ℚ)
    (hlen : 2 ≤ xs.length) (hvar : popVar xs ≠ 0) :
    (describeField xs).stdSq = some (sampleVar xs) ∧
      popVar xs ≠ sampleVar xs ∧
      ∃ x ∈ xs,
        (x - mean xs) ^ 2 / popVar xs ≠ (x - mean xs) ^ 2 / sampleVar xs := by
  have hn0 : xs.length ≠ 0 := by omega
  have hnq : ((xs.length : ℚ)) ≠ 0 := by exact_mod_cast hn0
  have h2q : (2 : ℚ) ≤ (xs.length : ℚ) := by exact_mod_cast hlen
  have hn1q : ((xs.length : ℚ)) - 1 ≠ 0 := by
    intro h
    have : ((xs.length : ℚ)) = 1 := by linarith
    linarith
  have hS : (xs.map (fun x => (x - mean xs) ^ 2)).sum ≠ 0 := by
    intro h0
    apply hvar
    rw [popVar, h0, zero_div]
  have hsv : sampleVar xs ≠ 0 := by
    rw [sampleVar]
    exact div_ne_zero hS hn1q
  have hpops : popVar xs ≠ sampleVar xs := by
    rw [popVar, sampleVar]
    intro h
    rw [div_eq_div_iff hnq hn1q] at h
    have hcancel := mul_left_cancel₀ hS h
    linarith
  have h2 : ¬ xs.length < 2 := by omega
  refine ⟨by simp [describeField, hn0, h2], hpops, ?_⟩
  by_contra hc
  push_neg at hc
  apply hS
  apply List.sum_eq_zero
  intro y hy
  rw [List.mem_map] at hy
  obtain ⟨x, hx, rfl⟩ := hy
  by_contra hne
  have heq := hc x hx
  rw [div_eq_div_iff hvar hsv] at heq
  have := mul_left_cancel₀ hne heq
  exact hpops (this.symm)

/-- Witness for C10 at the two-value column `[1, 2]`. -/
theorem popvar_samplevar_zscores_differ_witness :
    (2 ≤ ([(1 : ℚ), 2]).length ∧ popVar [(1 : ℚ), 2] ≠ 0) ∧
      ((describeField [(1 : ℚ), 2]).stdSq = some (sampleVar [(1 : ℚ), 2]) ∧
        popVar [(1 : ℚ), 2] ≠ sampleVar [(1 : ℚ), 2] ∧
        ∃ x ∈ [(1 : ℚ), 2],
          (x - mean [(1 : ℚ), 2]) ^ 2 / popVar [(1 : ℚ), 2] ≠
            (x - mean [(1 : ℚ), 2]) ^ 2 / sampleVar [(1 : ℚ), 2]) := by
  have hlen : 2 ≤ ([(1 : ℚ), 2]).length := by norm_num
  have hvar : popVar [(1 : ℚ), 2] ≠ 0 := by norm_num [popVar, mean]
  exact ⟨⟨hlen, hvar⟩, popvar_samplevar_zscores_differ [(1 : ℚ), 2] hlen hvar⟩

end WaterQuality

namespace WaterQuality

/-- With a positive effective limit and non-negative skip, the page length
is `min limit (matches - skip)`. -/
theorem observations_returned_formula (store : List Row) (q : FilterSpec)
    (la sa : Option ℤ) (hL : 1 ≤ effectiveLimit la)
    (hS : 0 ≤ effectiveSkip sa) :
    (observationsEndpoint store q la sa).returned =
      min (effectiveLimit la).toNat
        ((store.filter (obsMatches q)).length - (effectiveSkip sa).toNat) := by
  unfold observationsEndpoint
  dsimp only
  have hL0 : ¬ (effectiveLimit la = 0) := by omega
  rw [if_neg hL0]
  by_cases hz : effectiveSkip sa = 0
  · rw [if_pos hz, pySliceTo,
      if_pos (by omega : (0 : ℤ) ≤ effectiveLimit la), hz]
    simp [List.length_take]
  · rw [if_neg hz, pySliceFrom, if_pos hS, pySliceTo,
      if_pos (by omega : (0 : ℤ) ≤ effectiveLimit la)]
    simp [List.length_take, List.length_drop]

/-- Claim C5 (amended): For any store and filter, a supplied client limit
of at least 1 (unsupplied defaults to 100) and a supplied skip of at least
0 (unsupplied defaults to 0): the page size equals
`min(total_matches - skip, effective_limit)` when `skip < total_matches`
and is `0` otherwise, and the reported total is invariant under
limit/skip. -/
theorem query_page_size_formula (store : List Row) (q : FilterSpec)
    (la sa : Option ℤ) (hl : ∀ l ∈ la, 1 ≤ l) (hs : ∀ z ∈ sa, 0 ≤ z) :
    (effectiveSkip sa < ((observationsEndpoint store q la sa).count : ℤ) →
      ((observationsEndpoint store q la sa).returned : ℤ) =
        min (((observationsEndpoint store q la sa).count : ℤ) -
          effectiveSkip sa) (effectiveLimit la)) ∧
    (((observationsEndpoint store q la sa).count : ℤ) ≤ effectiveSkip sa →
      (observationsEndpoint store q la sa).returned = 0) ∧
    (∀ la2 sa2 : Option ℤ,
      (observationsEndpoint store q la2 sa2).count =
        (observationsEndpoint store q la sa).count) := by
  have hL : 1 ≤ effectiveLimit la := by
    rcases la with _ | l
    · norm_num [effectiveLimit]
    · have h := hl l rfl
      rw [effectiveLimit]
      simp only [Option.getD_some]
      omega
  have hS : 0 ≤ effectiveSkip sa := by
    rcases sa with _ | z
    · norm_num [effectiveSkip]
    · have h := hs z rfl
      rw [effectiveSkip]
      simpa using h
  have hcount : (observationsEndpoint store q la sa).count =
      (store.filter (obsMatches q)).length := rfl
  have hret := observations_returned_formula store q la sa hL hS
  refine ⟨?_, ?_, ?_⟩
  · intro hlt
    rw [hcount] at hlt ⊢
    rw [hret]
    omega
  · intro hle
    rw [hcount] at hle
    rw [hret]
    omega
  · intro la2 sa2
    rfl

/-- Claim C5 (counterexample): A client limit of `0` is forwarded to the
store, where `limit(0)` means *no limit*: on a one-record store the page
has 1 record although the claimed formula demands
`min(total - skip, limit) = min(1, 0) = 0`. -/
theorem limit_zero_breaks_page_formula :
    (observationsEndpoint [mkRow 0 1] FilterSpec.noFilter
        (some 0) (some 0)).count = 1 ∧
      (observationsEndpoint [mkRow 0 1] FilterSpec.noFilter
        (some 0) (some 0)).returned = 1 ∧
      effectiveSkip (some 0) = 0 ∧ effectiveLimit (some 0) = 0 ∧
      ¬ ((1 : ℤ) = min ((1 : ℤ) - 0) 0) := by
  refine ⟨?_, ?_, rfl, rfl, by norm_num⟩
  · simp [observationsEndpoint, effectiveLimit, effectiveSkip, obsMatches,
      optInBounds, FilterSpec.noFilter, mkRow, List.filter_cons]
  · simp [observationsEndpoint, effectiveLimit, effectiveSkip, obsMatches,
      optInBounds, FilterSpec.noFilter, mkRow, List.filter_cons]

end WaterQuality

namespace WaterQuality

/-- Witness for C5's amended theorem at a concrete store, limit 5, skip 0. -/
theorem query_page_size_formula_witness :
    ((∀ l ∈ (some 5 : Option ℤ), 1 ≤ l) ∧ (∀ z ∈ (some 0 : Option ℤ), 0 ≤ z)) ∧
    ((effectiveSkip (some 0) <
        ((observationsEndpoint [mkRow 0 1] FilterSpec.noFilter
          (some 5) (some 0)).count : ℤ) →
      ((observationsEndpoint [mkRow 0 1] FilterSpec.noFilter
          (some 5) (some 0)).returned : ℤ) =
        min (((observationsEndpoint [mkRow 0 1] FilterSpec.noFilter
          (some 5) (some 0)).count : ℤ) - effectiveSkip (some 0))
          (effectiveLimit (some 5))) ∧
    (((observationsEndpoint [mkRow 0 1] FilterSpec.noFilter
          (some 5) (some 0)).count : ℤ) ≤ effectiveSkip (some 0) →
      (observationsEndpoint [mkRow 0 1] FilterSpec.noFilter
          (some 5) (some 0)).returned = 0) ∧
    (∀ la2 sa2 : Option ℤ,
      (observationsEndpoint [mkRow 0 1] FilterSpec.noFilter la2 sa2).count =
        (observationsEndpoint [mkRow 0 1] FilterSpec.noFilter
          (some 5) (some 0)).count)) := by
  have h1 : ∀ l ∈ (some 5 : Option ℤ), 1 ≤ l := by
    intro l h
    simp only [Option.mem_def, Option.some.injEq] at h
    omega
  have h2 : ∀ z ∈ (some 0 : Option ℤ), 0 ≤ z := by
    intro z h
    simp only [Option.mem_def, Option.some.injEq] at h
    omega
  exact ⟨⟨h1, h2⟩,
    query_page_size_formula [mkRow 0 1] FilterSpec.noFilter (some 5) (some 0) h1 h2⟩

/-- Claim C6 (counterexample): A negative skip is not treated as `0`: on a
two-record store, `skip = -1` returns one record (Python tail slice in the
store) while `skip = 0` returns both. -/
theorem negative_skip_not_treated_as_zero :
    (observationsEndpoint [mkRow 0 1, mkRow 1 2] FilterSpec.noFilter
        none (some (-1))).returned = 1 ∧
      (observationsEndpoint [mkRow 0 1, mkRow 1 2] FilterSpec.noFilter
        none (some 0)).returned = 2 ∧
      observationsEndpoint [mkRow 0 1, mkRow 1 2] FilterSpec.noFilter
          none (some (-1)) ≠
        observationsEndpoint [mkRow 0 1, mkRow 1 2] FilterSpec.noFilter
          none (some 0) := by
  have ha : (observationsEndpoint [mkRow 0 1, mkRow 1 2] FilterSpec.noFilter
      none (some (-1))).returned = 1 := by
    simp [observationsEndpoint, effectiveLimit, effectiveSkip, pySliceFrom,
      pySliceTo, obsMatches, optInBounds, FilterSpec.noFilter, mkRow,
      List.filter_cons]
  have hb : (observationsEndpoint [mkRow 0 1, mkRow 1 2] FilterSpec.noFilter
      none (some 0)).returned = 2 := by
    simp [observationsEndpoint, effectiveLimit, effectiveSkip, pySliceFrom,
      pySliceTo, obsMatches, optInBounds, FilterSpec.noFilter, mkRow,
      List.filter_cons]
  refine ⟨ha, hb, ?_⟩
  intro h
  rw [h] at ha
  rw [ha] at hb
  exact absurd hb (by norm_num)

/-- Claim C6 (amended): The limit forwarded to the store is
`min(client_limit, 1000)` and so never exceeds 1000, and an *unspecified*
skip is treated as 0; a negative skip, however, is forwarded unchanged
(see the counterexample). -/
theorem limit_clamped_and_skip_defaults (store : List Row) (q : FilterSpec)
    (la : Option ℤ) :
    effectiveLimit la ≤ 1000 ∧
      observationsEndpoint store q la none =
        observationsEndpoint store q la (some 0) := by
  constructor
  · rw [effectiveLimit]
    exact min_le_right _ _
  · rfl

end WaterQuality

namespace WaterQuality

/-- Claim C7 (counterexample): On an empty cleaned store whose schema has
the temperature column, the `stats` endpoint does *not* return an error
("no data") condition: it succeeds with `count 0` and `NaN` (`none`)
statistics, which the endpoint serializes as numbers. -/
theorem empty_store_stats_returns_ok :
    statsEndpoint schemaTemp [] =
      Except.ok [(NumField.temperature,
        ⟨0, none, none, none, none, none, none, none⟩)] := by
  simp [statsEndpoint, Schema.numericAvailable, schemaTemp, colValues,
    describeField]

/-- Claim C7 (amended): When none of the required numeric columns is
available the endpoint returns an explicit error; when the store is empty
but numeric columns are present it succeeds, reporting `count = 0` and
`NaN` sentinels (`none`) for every statistic — never numeric values
silently defaulting to zero. -/
theorem stats_error_and_empty_sentinels (s : Schema) (store : List Row) :
    (s.numericAvailable = [] →
      statsEndpoint s store = Except.error "No numeric columns available") ∧
    (s.numericAvailable ≠ [] →
      statsEndpoint s ([] : List Row) =
        Except.ok (s.numericAvailable.map (fun f =>
          (f, (⟨0, none, none, none, none, none, none, none⟩ : FieldStats))))) := by
  constructor
  · intro h
    rw [statsEndpoint, h]
    rfl
  · intro h
    rw [statsEndpoint, if_neg ?_]
    · rfl
    · simpa [List.isEmpty_iff] using h

/-- Witness for C7's amended theorem: both branches at concrete schemas. -/
theorem stats_error_and_empty_sentinels_witness :
    (Schema.numericAvailable ⟨false, false, false⟩ = [] ∧
      statsEndpoint ⟨false, false, false⟩ [] =
        Except.error "No numeric columns available") ∧
    (schemaTemp.numericAvailable ≠ [] ∧
      statsEndpoint schemaTemp ([] : List Row) =
        Except.ok (schemaTemp.numericAvailable.map (fun f =>
          (f, (⟨0, none, none, none, none, none, none, none⟩ : FieldStats))))) := by
  have h1 : Schema.numericAvailable ⟨false, false, false⟩ = [] := rfl
  have h2 : schemaTemp.numericAvailable ≠ [] := by
    simp [Schema.numericAvailable, schemaTemp]
  exact ⟨⟨h1, (stats_error_and_empty_sentinels ⟨false, false, false⟩ []).1 h1⟩,
    ⟨h2, (stats_error_and_empty_sentinels schemaTemp []).2 h2⟩⟩

end WaterQuality
